import Mathlib

/-!
Verification development for the CeltaCalendar bot (main_scraper.py).

The definitions below are a shallow embedding of the pure, reconciliation-relevant
parts of the script: the team-name normaliser (normalize_team_key, lines 116-123),
the venue registry (find_stadium_dynamic lines 125-142, update_db lines 144-161,
save_stadium_db lines 105-114), the channel resolver (parse_tv_channels, lines
209-286), the TBD determination of fetch_matches (lines 586-604), and the
diff/decision logic of run_sync (lines 884-952).

Python string operations are modelled on lists of characters.  Every bounded
while-loop of the original (or of the Python standard library routines it calls)
is rendered as structural recursion, with an explicit fuel argument where the
recursion consumes more than one constructor per step; the fuel supplied by the
wrapper definitions (length of the input plus one) is always sufficient because
each step consumes at least one character.
-/

set_option maxRecDepth 100000

/-- Characters treated as whitespace by the Python `str.split` / `str.strip`
used in the script: space, tab, newline, carriage return, vertical tab, form
feed, and the non-breaking space that `html.unescape` can produce.  (Python
recognises further exotic Unicode spaces; none can occur in this data.) -/
def pyIsSpace (c : Char) : Bool :=
  c == ' ' || c == '\t' || c == '\n' || c.toNat == 13 || c.toNat == 11 ||
  c.toNat == 12 || c.toNat == 160

/-- Python `str.strip()`: drop leading and trailing whitespace. -/
def pyStripL (l : List Char) : List Char :=
  ((l.dropWhile pyIsSpace).reverse.dropWhile pyIsSpace).reverse

/-- Helper of `splitWsL`: accumulate the current word (reversed) while
scanning. -/
def splitWsAux : List Char → List Char → List (List Char)
  | [], acc => if acc.isEmpty then [] else [acc.reverse]
  | c :: rest, acc =>
    if pyIsSpace c then
      if acc.isEmpty then splitWsAux rest [] else acc.reverse :: splitWsAux rest []
    else splitWsAux rest (c :: acc)

/-- Python `str.split()` with no argument: split on runs of whitespace,
discarding empty pieces. -/
def splitWsL (l : List Char) : List (List Char) := splitWsAux l []

/-- Python `" ".join(text.split())`: collapse whitespace runs to single
spaces. -/
def collapseWs (l : List Char) : List Char := List.intercalate [' '] (splitWsL l)

/-- Whether the first list is an initial segment of the second
(Python `str.startswith`, and the one-position test of `in`). -/
def leadsIn : List Char → List Char → Bool
  | [], _ => true
  | _ :: _, [] => false
  | a :: as, b :: bs => a == b && leadsIn as bs

/-- Python substring containment `needle in hay`. -/
def occursIn (n : List Char) : List Char → Bool
  | [] => n.isEmpty
  | c :: t => leadsIn n (c :: t) || occursIn n t

/-- Python `s.split(sep)[0]` for a one-character separator: the part of the
list before the first occurrence of `c` (the whole list if absent). -/
def takeBeforeChar (c : Char) : List Char → List Char
  | [] => []
  | x :: rest => if x == c then [] else x :: takeBeforeChar c rest

/-- The front part of the list before the first occurrence of the pattern `pat`
(the whole list if `pat` never occurs).  Used to model the spec wording about
the title core. -/
def takeBeforeSeq (pat : List Char) : List Char → List Char
  | [] => []
  | c :: rest => if leadsIn pat (c :: rest) then [] else c :: takeBeforeSeq pat rest

/-- Fueled worker for `replaceAll`.  Each step consumes at least one character
of the input (the whole pattern when it matches), so fuel equal to the input
length suffices. -/
def replaceAllF (pat rep : List Char) : Nat → List Char → List Char
  | 0, l => l
  | _, [] => []
  | fuel + 1, c :: rest =>
    if pat ≠ [] ∧ leadsIn pat (c :: rest) then
      rep ++ replaceAllF pat rep fuel ((c :: rest).drop pat.length)
    else c :: replaceAllF pat rep fuel rest

/-- Python `str.replace(pat, rep)`: replace every non-overlapping occurrence,
scanning left to right.  (For the empty pattern Python interleaves `rep`
everywhere; the script only ever replaces non-empty patterns, and this model
returns the input unchanged in that unreachable case.) -/
def replaceAll (pat rep l : List Char) : List Char :=
  replaceAllF pat rep (l.length + 1) l

/-- Worker for `stripTagsF`: having consumed a `<`, scan for the minimal
closing `>` of the non-greedy regex `<[^<]+?>` used at line 169.  The flag
records whether at least one class character has been consumed; a second `<`
or the end of input means the regex does not match at this position. -/
def tagClose (hasOne : Bool) : List Char → Option (List Char)
  | [] => none
  | c :: rest =>
    if c == '<' then none
    else if hasOne && c == '>' then some rest
    else tagClose true rest

/-- Fueled worker for `stripTags` (the `re.sub` of the non-greedy tag regex):
each step consumes at least one character. -/
def stripTagsF : Nat → List Char → List Char
  | 0, l => l
  | _, [] => []
  | fuel + 1, c :: rest =>
    if c == '<' then
      match tagClose false rest with
      | some rem => stripTagsF fuel rem
      | none => c :: stripTagsF fuel rest
    else c :: stripTagsF fuel rest

/-- The tag-stripping regex substitution of `normalize_text` (line 169). -/
def stripTags (l : List Char) : List Char := stripTagsF (l.length + 1) l

/-- The HTML entities that can occur in the scraped data, with their
replacements; `&nbsp;` becomes the non-breaking space U+00A0 exactly as in
Python, which the later whitespace collapse removes. -/
def entityPairs : List (List Char × Char) :=
  [("amp;".data, '&'), ("lt;".data, '<'), ("gt;".data, '>'),
   ("quot;".data, Char.ofNat 34), ("nbsp;".data, Char.ofNat 160)]

/-- Fueled worker for `htmlUnescapeL`. -/
def unescapeF : Nat → List Char → List Char
  | 0, l => l
  | _, [] => []
  | fuel + 1, c :: rest =>
    if c == '&' then
      match entityPairs.find? (fun p => leadsIn p.1 rest) with
      | some p => p.2 :: unescapeF fuel (rest.drop p.1.length)
      | none => c :: unescapeF fuel rest
    else c :: unescapeF fuel rest

/-- Model of Python `html.unescape` (line 167) restricted to the named
entities that the scraped sources emit; the full HTML5 entity table (numeric
references, entities without semicolon) is not needed for any comparison the
script performs. -/
def htmlUnescapeL (l : List Char) : List Char := unescapeF (l.length + 1) l

/-- Python `str.lower()`.  Lean `Char.toLower` only lowers ASCII letters; all
non-ASCII letters the script compares in lower case (accented Spanish
letters) are already lower case in the relevant literals. -/
def pyLower (s : String) : String := String.mk (s.data.map Char.toLower)

/-- Python `str.upper()` (ASCII, see `pyLower`). -/
def pyUpper (s : String) : String := String.mk (s.data.map Char.toUpper)

/-- Diacritic table modelling `unicodedata.normalize("NFD", ...)` followed by
`encode("ascii", "ignore")` at line 118 for the Latin letters occurring in
Spanish football data.  Characters not in the table and not ASCII have no
ASCII base after NFD in this data and are dropped, exactly as the Python
ignore-encoding drops them. -/
def accentPairs : List (Char × Char) :=
  [('á', 'a'), ('é', 'e'), ('í', 'i'), ('ó', 'o'), ('ú', 'u'), ('ü', 'u'),
   ('ñ', 'n'), ('ç', 'c'), ('à', 'a'), ('è', 'e'), ('ì', 'i'), ('ò', 'o'),
   ('ù', 'u'), ('â', 'a'), ('ê', 'e'), ('î', 'i'), ('ô', 'o'), ('û', 'u'),
   ('ä', 'a'), ('ë', 'e'), ('ï', 'i'), ('ö', 'o'), ('Á', 'A'), ('É', 'E'),
   ('Í', 'I'), ('Ó', 'O'), ('Ú', 'U'), ('Ü', 'U'), ('Ñ', 'N'), ('Ç', 'C')]

/-- NFD decomposition plus ASCII-ignore encoding (line 118). -/
def asciiFold (l : List Char) : List Char :=
  l.filterMap fun c =>
    if c.toNat < 128 then some c
    else
      match accentPairs.find? (fun p => p.1 == c) with
      | some p => some p.2
      | none => none

/-- Python code-point lexicographic `<` on strings, as used by tuple
comparison inside `heapq.nlargest`. -/
def strLt : List Char → List Char → Bool
  | [], [] => false
  | [], _ :: _ => true
  | _ :: _, [] => false
  | a :: xs, b :: ys =>
    if a.toNat < b.toNat then true
    else if b.toNat < a.toNat then false
    else strLt xs ys

/-- `clean_text` (lines 173-175): `" ".join(text.strip().split())`, with the
falsy-input guard. -/
def clean_text (s : String) : String :=
  if s = "" then "" else String.mk (collapseWs (pyStripL s.data))

/-- `normalize_text` (lines 165-171): HTML unescape, break-tag to newline
replacement, tag stripping, whitespace collapse, final strip. -/
def normalize_text (s : String) : String :=
  if s = "" then ""
  else
    let t1 := htmlUnescapeL s.data
    let t2 := replaceAll "<br>".data "\n".data t1
    let t3 := replaceAll "<br/>".data "\n".data t2
    let t4 := replaceAll "</p>".data "\n".data t3
    let t5 := stripTags t4
    String.mk (pyStripL (collapseWs t5))

/-- The legal-form tokens removed by `normalize_team_key` (line 120), in their
exact order. -/
def removeTokens : List String :=
  [" fc", " cf", " ud", " cd", " sd", "real ", "club ", "deportivo ", "atletico "]

/-- `normalize_team_key` (lines 116-123): diacritic strip, lower-case,
sequential token replacement by a single space, whitespace collapse, strip. -/
def normalize_team_key (name : String) : String :=
  if name = "" then ""
  else
    let t1 := (asciiFold name.data).map Char.toLower
    let t2 := removeTokens.foldl (fun acc tok => replaceAll tok.data [' '] acc) t1
    String.mk (pyStripL (collapseWs t2))

/-! ## difflib sequence matching

`find_stadium_dynamic` calls `difflib.get_close_matches(target, keys, n=1,
cutoff=0.85)`.  The definitions below transcribe the CPython `difflib`
algorithm for short sequences: the junk machinery is inert because the
matcher is created with no junk predicate and the compared strings are far
below the 200-character autojunk threshold, and the `real_quick_ratio` /
`quick_ratio` pre-filters are documented upper bounds of `ratio`, so the
triple cutoff test reduces to `ratio >= cutoff`.  Ratios are kept as exact
rational pairs; the 0.85 literal is the rational 17/20. -/

/-- Lookup in the `j2len` row map of `find_longest_match`, defaulting to 0. -/
def j2get (m : List (Nat × Nat)) (j : Nat) : Nat :=
  match m.find? (fun p => p.1 == j) with
  | some p => p.2
  | none => 0

/-- State of the `find_longest_match` dynamic programming loop. -/
structure FlmSt where
  j2len : List (Nat × Nat)
  besti : Nat
  bestj : Nat
  bestsize : Nat

/-- One iteration of the outer `for i` loop of `find_longest_match`: scan the
positions `j` of `b` in `[blo, bhi)` holding the character `a[i]`, extending
runs recorded in the previous row and updating the best block on a strictly
longer run (so earlier `i`, then earlier `j`, wins ties exactly as in
Python). -/
def flmRow (a b : List Char) (blo bhi i : Nat) (st : FlmSt) : FlmSt :=
  let ai := a.getD i (Char.ofNat 0)
  let res := (List.range bhi).foldl
    (fun (acc : List (Nat × Nat) × Nat × Nat × Nat) j =>
      if blo ≤ j ∧ b.getD j (Char.ofNat 1) = ai then
        let k := (if j = 0 then 0 else j2get st.j2len (j - 1)) + 1
        let nm := (j, k) :: acc.1
        if k > acc.2.2.2 then (nm, i + 1 - k, j + 1 - k, k)
        else (nm, acc.2)
      else acc)
    ([], st.besti, st.bestj, st.bestsize)
  ⟨res.1, res.2.1, res.2.2.1, res.2.2.2⟩

/-- The dynamic-programming part of `find_longest_match` over
`a[alo:ahi]` and `b[blo:bhi]`, returning `(besti, bestj, bestsize)`. -/
def flmCore (a b : List Char) (alo ahi blo bhi : Nat) : Nat × Nat × Nat :=
  let st := (List.range' alo (ahi - alo)).foldl
    (fun st i => flmRow a b blo bhi i st) ⟨[], alo, blo, 0⟩
  (st.besti, st.bestj, st.bestsize)

/-- The leftward extension loop of `find_longest_match` (no junk, so the junk
guard is inert).  Fuel bounds the number of steps; `besti + 1` suffices since
`besti` strictly decreases. -/
def extLeft (a b : List Char) (alo blo : Nat) : Nat → Nat × Nat × Nat → Nat × Nat × Nat
  | 0, r => r
  | fuel + 1, (bi, bj, bs) =>
    if alo < bi ∧ blo < bj ∧ a.getD (bi - 1) (Char.ofNat 0) = b.getD (bj - 1) (Char.ofNat 1) then
      extLeft a b alo blo fuel (bi - 1, bj - 1, bs + 1)
    else (bi, bj, bs)

/-- The rightward extension loop of `find_longest_match`. -/
def extRight (a b : List Char) (ahi bhi : Nat) : Nat → Nat × Nat × Nat → Nat × Nat × Nat
  | 0, r => r
  | fuel + 1, (bi, bj, bs) =>
    if bi + bs < ahi ∧ bj + bs < bhi ∧
        a.getD (bi + bs) (Char.ofNat 0) = b.getD (bj + bs) (Char.ofNat 1) then
      extRight a b ahi bhi fuel (bi, bj, bs + 1)
    else (bi, bj, bs)

/-- `SequenceMatcher.find_longest_match` for a junk-free matcher. -/
def findLongestMatch (a b : List Char) (alo ahi blo bhi : Nat) : Nat × Nat × Nat :=
  let r := flmCore a b alo ahi blo bhi
  let r2 := extLeft a b alo blo (r.1 + 1) r
  extRight a b ahi bhi (ahi + 1) r2

/-- Total size of all matching blocks, the quantity `get_matching_blocks`
feeds into `ratio`.  The queue of the Python implementation is rendered as
recursion on the two flanking subproblems; the fuel is the sum of the two
interval lengths plus one, which suffices because each recursion strictly
shrinks that sum. -/
def matchTotal (a b : List Char) : Nat → Nat × Nat × Nat × Nat → Nat
  | 0, _ => 0
  | fuel + 1, (alo, ahi, blo, bhi) =>
    let r := findLongestMatch a b alo ahi blo bhi
    if r.2.2 = 0 then 0
    else
      r.2.2 + matchTotal a b fuel (alo, r.1, blo, r.2.1) +
        matchTotal a b fuel (r.1 + r.2.2, ahi, r.2.1 + r.2.2, bhi)

/-- `SequenceMatcher(None, b).set_seq1(a).ratio()` as the exact pair
`(2 * matches, len(a) + len(b))`. -/
def seqRatioPair (a b : List Char) : Nat × Nat :=
  (2 * matchTotal a b (a.length + b.length + 1) (0, a.length, 0, b.length),
   a.length + b.length)

/-- The cutoff test `ratio() >= 0.85`; for two empty sequences difflib
defines the ratio as 1. -/
def ratioAtLeastCutoff (num den : Nat) : Bool :=
  if den = 0 then true else 20 * num ≥ 17 * den

/-- Ratio pair normalised so the denominator is positive (difflib gives two
empty sequences ratio 1). -/
def ratioNorm (p : Nat × Nat) : Nat × Nat := if p.2 = 0 then (1, 1) else p

/-- `difflib.get_close_matches(word, possibilities, n=1, cutoff=0.85)`: keep
the possibilities whose ratio reaches the cutoff and return the maximum of
the `(ratio, string)` pairs in the Python tuple order — strictly larger
ratio wins, equal ratios are broken towards the code-point-lexicographically
larger string, and the first encountered element is kept on a full tie
(unreachable, since dictionary keys are distinct). -/
def closeMatch1 (word : String) (poss : List String) : Option String :=
  let scored : List ((Nat × Nat) × String) := poss.filterMap fun x =>
    let p := seqRatioPair x.data word.data
    if ratioAtLeastCutoff p.1 p.2 then some (ratioNorm p, x) else none
  let best : Option ((Nat × Nat) × String) := scored.foldl
    (fun best c =>
      match best with
      | none => some c
      | some b =>
        if c.1.1 * b.1.2 > b.1.1 * c.1.2 then some c
        else if c.1.1 * b.1.2 = b.1.1 * c.1.2 ∧ strLt b.2.data c.2.data then some c
        else some b)
    none
  best.map Prod.snd

/-! ## Venue registry -/

/-- A record of `stadiums.json` as written by `update_db` (lines 155-160). -/
structure Entry where
  stadium : String
  location : String
  aliases : List String
  lastUpdated : String
deriving DecidableEq

/-- The in-memory registry together with the dirty flag; the Python dict is
modelled as an insertion-ordered association list with distinct keys. -/
structure DbState where
  db : List (String × Entry)
  dirty : Bool
deriving DecidableEq

/-- Python dict lookup `STADIUM_DB[k]` / `k in STADIUM_DB`. -/
def dbFind : List (String × Entry) → String → Option Entry
  | [], _ => none
  | (k0, e0) :: t, k => if k0 = k then some e0 else dbFind t k

/-- Python dict assignment `STADIUM_DB[k] = e`: replace in place when the key
exists, append otherwise. -/
def dbSet : List (String × Entry) → String → Entry → List (String × Entry)
  | [], k, e => [(k, e)]
  | (k0, e0) :: t, k, e => if k0 = k then (k, e) :: t else (k0, e0) :: dbSet t k e

/-- The dict comprehension `{normalize_team_key(k): k for k in db_keys}` at
line 132: first occurrence fixes the position of a normalised key, a later
equal normalisation overwrites the stored original key. -/
def buildNormMap (keys : List String) : List (String × String) :=
  keys.foldl
    (fun m k =>
      let nk := normalize_team_key k
      if m.any (fun p => p.1 == nk) then
        m.map (fun p => if p.1 == nk then (p.1, k) else p)
      else m ++ [(nk, k)])
    []

/-- Access `norm_keys_map[matches[0]]` (line 135); the default is unreachable
because `closeMatch1` only returns keys of the map. -/
def normValue (m : List (String × String)) (nk : String) : String :=
  (((m.find? (fun p => p.1 == nk))).map Prod.snd).getD ""

/-- The pair `(stadium, location)` returned for a hit. -/
def entryPair (e : Entry) : Option String × Option String :=
  (some e.stadium, some e.location)

/-- `find_stadium_dynamic` (lines 125-142): raw-key exact hit, then the fuzzy
match of the normalised target against the normalised canonical keys, then a
raw-name scan of the alias lists in insertion order. -/
def find_stadium_dynamic (db : List (String × Entry)) (teamName : String) :
    Option String × Option String :=
  if db = [] then (none, none)
  else
    match dbFind db teamName with
    | some entry => entryPair entry
    | none =>
      let normMap := buildNormMap (db.map Prod.fst)
      match closeMatch1 (normalize_team_key teamName) (normMap.map Prod.fst) with
      | some nk =>
        match dbFind db (normValue normMap nk) with
        | some entry => entryPair entry
        | none => (none, none)
      | none =>
        match db.find? (fun p => p.2.aliases.contains teamName) with
        | some p => entryPair p.2
        | none => (none, none)

/-- The quality-gate blacklist of `update_db` (line 146). -/
def invalidTerms : List String :=
  ["campo municipal", "estadio local", "campo de futbol", "municipal"]

/-- The quality gate of `update_db` (line 147): reject when the lower-cased
stadium contains a blacklisted term and is shorter than 15 characters. -/
def gateRejects (stadium : String) : Bool :=
  invalidTerms.any (fun t => occursIn t.data (pyLower stadium).data) &&
    stadium.length < 15

/-- `update_db` (lines 144-161).  `today` models the
`datetime.datetime.now().strftime("%Y-%m-%d")` stamp.  When the gate passes,
the entry keyed by the raw team name is written whole — with an empty alias
list — and the dirty flag is set; the branch on a pre-existing key only
affects logging. -/
def update_db (st : DbState) (teamName stadium location today : String) : DbState :=
  if gateRejects stadium then st
  else { db := dbSet st.db teamName ⟨stadium, location, [], today⟩, dirty := true }

/-- `save_stadium_db` (lines 105-114), success path: the first component is
the payload written to disk (none when no write happens), the second the
state afterwards. -/
def saveDb (st : DbState) : Option (List (String × Entry)) × DbState :=
  if st.dirty then (some st.db, ⟨st.db, false⟩) else (none, st)

/-! ## Channel resolver -/

/-- The exclusion terms of `parse_tv_channels` (line 224). -/
def excludedTerms : List String := ["Hellotickets", "LaLiga TV Bar", "Entrada"]

/-- Free-to-air keywords (line 242). -/
def freeKeywords : List String :=
  ["La 1", "TVE", "Teledeporte", "TVG", "Galicia", "Gol", "Cuatro", "Telecinco"]

/-- DAZN keywords (line 243). -/
def daznKeywords : List String := ["DAZN"]

/-- Movistar keywords (line 244). -/
def movistarKeywords : List String := ["M+", "Movistar"]

/-- Filtering and cleaning of one list item (lines 219-233): strip, drop
excluded and confirm-pending entries, truncate at the first opening
parenthesis, clean. -/
def filterChannel (raw0 : String) : Option String :=
  let raw := String.mk (pyStripL raw0.data)
  if excludedTerms.any (fun t => occursIn t.data raw.data) then none
  else if occursIn "confirmar".data (pyLower raw).data then none
  else
    let t := if occursIn ['('] raw.data then String.mk (pyStripL (takeBeforeChar '(' raw.data)) else raw
    some (clean_text t)

/-- Keyword membership in the free-to-air tier (line 256). -/
def isFree (ch : String) : Bool :=
  freeKeywords.any fun k => occursIn (pyUpper k).data (pyUpper ch).data

/-- Keyword membership in the DAZN tier (line 258). -/
def isDazn (ch : String) : Bool :=
  daznKeywords.any fun k => occursIn (pyUpper k).data (pyUpper ch).data

/-- Keyword membership in the Movistar tier (line 260). -/
def isMovistar (ch : String) : Bool :=
  movistarKeywords.any fun k => occursIn (pyUpper k).data (pyUpper ch).data

/-- The bucket loop of lines 254-263: each channel goes to the first tier it
matches, in input order. -/
def bucketize : List String → List String × List String × List String × List String
  | [] => ([], [], [], [])
  | ch :: rest =>
    let r := bucketize rest
    if isFree ch then (ch :: r.1, r.2.1, r.2.2.1, r.2.2.2)
    else if isDazn ch then (r.1, ch :: r.2.1, r.2.2.1, r.2.2.2)
    else if isMovistar ch then (r.1, r.2.1, ch :: r.2.2.1, r.2.2.2)
    else (r.1, r.2.1, r.2.2.1, ch :: r.2.2.2)

/-- `parse_tv_channels` (lines 209-286).  The DOM argument is modelled as the
optional list of the text contents of the `li` items. -/
def parse_tv_channels (ul : Option (List String)) : Option String × Option String :=
  match ul with
  | none => (none, none)
  | some items =>
    let channels := items.filterMap filterChannel
    if channels = [] then (none, none)
    else
      let b := bucketize channels
      let finalList := b.1 ++ b.2.1 ++ b.2.2.1 ++ b.2.2.2
      match finalList with
      | [] => (none, none)
      | top0 :: _ =>
        let fullString := String.intercalate ", " finalList
        let top := pyUpper top0
        let short :=
          if freeKeywords.any (fun k => occursIn (pyUpper k).data top.data) then
            if occursIn "TVG".data top.data || occursIn "GALICIA".data top.data then "TVG"
            else if occursIn "TELEDEPORTE".data top.data then "tdp"
            else if occursIn "LA 1".data top.data || occursIn "TVE".data top.data then "La1"
            else if occursIn "RTVE".data top.data then "RTVEPlay"
            else "Abierto"
          else if occursIn "DAZN".data top.data then "DAZN"
          else if occursIn "M+".data top.data || occursIn "MOVISTAR".data top.data then "M+"
          else "TV"
        (some short, some fullString)

/-! ## Fixture building: the TBD rule -/

/-- The TBD determination of `fetch_matches` (lines 600-604): the raw
`hastime` attribute (default `"1"` when absent) marks the kickoff as
unconfirmed, and a parsed local kickoff of exactly midnight is likewise
treated as unconfirmed.  `localHour` and `localMinute` are the
`astimezone()` local components of the parsed start. -/
def fetchIsTbd (hastime : String) (localHour localMinute : Nat) : Bool :=
  if hastime = "1" then true
  else if localHour = 0 ∧ localMinute = 0 then true
  else false

/-- Modelled from the spec: the has-exact-time flag of the raw fixture tuple
(section 6).  The scraping boundary carries it as the `hastime` DOM
attribute, whose value `"1"` is what the script treats as the absence of an
exact published time (line 603). -/
def hasExactTimeFlag (hastime : String) : Bool := decide (hastime ≠ "1")

/-! ## Reconciliation engine

The decision logic of `run_sync` (lines 884-952) is embedded as a pure
function of the rendered candidate fields and the optional existing-event
snapshot.  Timestamps are modelled in whole seconds (the script compares
`float` timestamps; the 60-second threshold is never within rounding
distance of the sub-second parts, which are zero for calendar events). -/

/-- A reminder override `{method, minutes}` (lines 860-868). -/
structure Reminder where
  method : String
  minutes : Nat
deriving DecidableEq

/-- The four outcomes of the per-fixture reconciliation. -/
inductive Decision where
  | Insert
  | UpdateSilent
  | UpdateNotify
  | Skip
deriving DecidableEq

/-- The rendered candidate of one fixture as the decision logic consumes it:
the full event title, description, location, log suffix, UTC start in
seconds, sorted reminder list, the raw status text, and the optional score
string. -/
structure CandidateRender where
  fullTitle : String
  desc : String
  location : String
  logSuffix : String
  startTs : Int
  reminders : List Reminder
  statusRaw : String
  score : Option String
deriving DecidableEq

/-- The read-only projection of an existing calendar event (the fields of
`ev` the decision logic reads); `startTs` is the result of
`parse_google_iso` on the stored start, `none` when unparsable. -/
structure Snapshot where
  summary : String
  description : String
  location : String
  startTs : Option Int
  overrides : List Reminder
deriving DecidableEq

/-- `is_finished` (line 726): whether the lower-cased status contains
`"fin"`. -/
def isFinishedOf (c : CandidateRender) : Bool :=
  occursIn "fin".data (pyLower c.statusRaw).data

/-- The consolidated-skip guard (lines 887-889): a finished fixture whose
truthy score already appears in the cleaned existing title is skipped
outright. -/
def consolidatedSkip (c : CandidateRender) (ev : Snapshot) : Bool :=
  isFinishedOf c &&
    (match c.score with
     | some s => !s.isEmpty && occursIn s.data (clean_text ev.summary).data
     | none => false)

/-- The time-change trigger (lines 897-904): the stored start parses and
differs from the candidate kickoff by strictly more than 60 seconds. -/
def timeTrigger (c : CandidateRender) (ev : Snapshot) : Bool :=
  match ev.startTs with
  | some t => decide ((t - c.startTs).natAbs > 60)
  | none => false

/-- The title-change trigger (lines 907-912): normalized full titles
differ. -/
def titleTrigger (c : CandidateRender) (ev : Snapshot) : Bool :=
  decide (normalize_text ev.summary ≠ normalize_text c.fullTitle)

/-- The description-change trigger (lines 917-920). -/
def descTrigger (c : CandidateRender) (ev : Snapshot) : Bool :=
  decide (normalize_text ev.description ≠ normalize_text c.desc)

/-- The location-change trigger (lines 923-926). -/
def locTrigger (c : CandidateRender) (ev : Snapshot) : Bool :=
  decide (normalize_text ev.location ≠ normalize_text c.location)

/-- The reminder-change trigger (lines 929-932): plain ordered list
inequality of the override lists. -/
def remTrigger (c : CandidateRender) (ev : Snapshot) : Bool :=
  decide (ev.overrides ≠ c.reminders)

/-- The per-fixture decision of `run_sync` (lines 884-952), mirroring the
`needs_update` / `notify_telegram` control flow: the description, location
and reminder checks run only when no earlier check fired, and only the time
and title checks raise the notification flag. -/
def syncDecision (c : CandidateRender) (ev? : Option Snapshot) : Decision :=
  match ev? with
  | none => .Insert
  | some ev =>
    if consolidatedSkip c ev then .Skip
    else
      let needs1 := timeTrigger c ev
      let notify := timeTrigger c ev || titleTrigger c ev
      let needs2 := needs1 || titleTrigger c ev
      let needs3 := if needs2 then needs2 else descTrigger c ev
      let needs4 := if needs3 then needs3 else locTrigger c ev
      let needs5 := if needs4 then needs4 else remTrigger c ev
      if needs5 then (if notify then .UpdateNotify else .UpdateSilent) else .Skip

/-- Whether a decision issues a calendar API write (insert at line 945,
update at line 935). -/
def issuesWrite : Decision → Bool
  | .Insert => true
  | .UpdateNotify => true
  | .UpdateSilent => true
  | .Skip => false

/-- The Telegram line appended for an update with notification (line 942). -/
def actualizadoMsg (c : CandidateRender) : String :=
  "🔄 <b>Actualizado:</b> " ++ c.fullTitle ++ "\n" ++ c.logSuffix

/-- The Telegram line appended for a new event (line 952). -/
def nuevoMsg (c : CandidateRender) : String :=
  "✅ <b>Nuevo:</b> " ++ c.fullTitle ++ "\n" ++ c.logSuffix

/-- The Telegram message a fixture contributes, if any: inserts always
notify, updates notify only when the time or title trigger fired, silent
updates and skips produce nothing (lines 934-952). -/
def decideMsg (c : CandidateRender) (ev? : Option Snapshot) : Option String :=
  match syncDecision c ev? with
  | .Insert => some (nuevoMsg c)
  | .UpdateNotify => some (actualizadoMsg c)
  | _ => none

/-- The batch of Telegram messages a cycle of fixtures produces
(lines 717, 942, 952, 956-957). -/
def telegramBatch (pairs : List (CandidateRender × Option Snapshot)) : List String :=
  pairs.filterMap fun p => decideMsg p.1 p.2

/-- The snapshot a previously synced cycle leaves behind for a fixture whose
rendered fields are unchanged: the stored event carries exactly the rendered
title, description, location, start and reminder overrides (`event_body`,
lines 872-881, read back through the snapshot projection). -/
def renderedSnapshot (c : CandidateRender) : Snapshot :=
  ⟨c.fullTitle, c.desc, c.location, some c.startTs, c.reminders⟩

/-! ## Spec-modelled definitions

These definitions follow the wording of the specification, not the source;
they exist to compare the code against the specified behaviour. -/

/-- The first stage of `find_stadium_dynamic` as a staged lookup: exact hit
on the raw stored key. -/
def rawKeyStage (db : List (String × Entry)) (teamName : String) :
    Option (Option String × Option String) :=
  (dbFind db teamName).map entryPair

/-- The second stage of `find_stadium_dynamic` as a staged lookup: the fuzzy
match of the normalised target against the normalised canonical keys. -/
def fuzzyStage (db : List (String × Entry)) (teamName : String) :
    Option (Option String × Option String) :=
  let normMap := buildNormMap (db.map Prod.fst)
  (closeMatch1 (normalize_team_key teamName) (normMap.map Prod.fst)).map fun nk =>
    match dbFind db (normValue normMap nk) with
    | some entry => entryPair entry
    | none => (none, none)

/-- The third stage of `find_stadium_dynamic` as a staged lookup: the first
entry, in insertion order, whose alias list contains the raw team name. -/
def rawAliasStage (db : List (String × Entry)) (teamName : String) :
    Option (Option String × Option String) :=
  (db.find? (fun p => p.2.aliases.contains teamName)).map fun p => entryPair p.2

/-- The lookup algorithm stated in the amended order: raw-key exact hit,
then fuzzy over normalised canonical keys, then raw alias scan. -/
def lookupAmended (db : List (String × Entry)) (teamName : String) :
    Option String × Option String :=
  if db = [] then (none, none)
  else
    (((rawKeyStage db teamName).orElse fun _ =>
        (fuzzyStage db teamName).orElse fun _ =>
          rawAliasStage db teamName)).getD (none, none)

/-- Modelled from the spec: the stage-3 approximate match of section 4.2 —
normalised target against all known normalised keys and aliases, accepted
only at similarity at least 0.85, ties broken by first-encountered insertion
order. -/
def specFuzzy (db : List (String × Entry)) (tgt : String) : Option Entry :=
  let cands := db.flatMap fun p =>
    (p.1 :: p.2.aliases).map fun nm =>
      (ratioNorm (seqRatioPair (normalize_team_key nm).data tgt.data), p.2)
  let scored := cands.filter fun c => ratioAtLeastCutoff c.1.1 c.1.2
  (scored.foldl
    (fun acc c =>
      match acc with
      | none => some c
      | some b => if c.1.1 * b.1.2 > b.1.1 * c.1.2 then some c else some b)
    none).map Prod.snd

/-- Modelled from the spec: the lookup resolution order claimed in section
4.2 — (1) exact match on the canonical stored key, (2) exact match via the
alias index on the normalised team name, (3) approximate similarity against
all known normalised keys and aliases at threshold 0.85 — with the
normalisation function applied on every comparison path. -/
def lookupSpec (db : List (String × Entry)) (teamName : String) :
    Option String × Option String :=
  let tgt := normalize_team_key teamName
  match db.find? (fun p => normalize_team_key p.1 == tgt) with
  | some p => entryPair p.2
  | none =>
    match db.find? (fun p => p.2.aliases.any fun al => normalize_team_key al == tgt) with
    | some p => entryPair p.2
    | none =>
      match specFuzzy db tgt with
      | some e => entryPair e
      | none => (none, none)

/-- Modelled from the spec: the opponent-identifying core portion of a title
(section 4.5) — the home-vs-away/score segment before the appended
suffixes, which the script always introduces with the separator
`" |"` (line 817), compared after text normalisation. -/
def titleCore (s : String) : String :=
  String.mk (takeBeforeSeq " |".data (normalize_text s).data)

/-- Modelled from the spec: a TBD-to-confirmed transition between the stored
title and the candidate title; the script marks unconfirmed fixtures with
the title prefix `"(TBC) "` (line 827). -/
def tbdToConfirmed (evTitle candTitle : String) : Bool :=
  leadsIn "(TBC) ".data evTitle.data && !leadsIn "(TBC) ".data candTitle.data

/-- Modelled from the spec: the MajorChange trigger of section 4.5 — time
difference above 60 seconds, a differing opponent-identifying title core, or
a TBD-to-confirmed transition. -/
def specMajorTrigger (c : CandidateRender) (ev : Snapshot) : Bool :=
  timeTrigger c ev || decide (titleCore ev.summary ≠ titleCore c.fullTitle) ||
    tbdToConfirmed ev.summary c.fullTitle

/-! ## Concrete inputs for counterexamples and witnesses -/

/-- The standard reminder list built at lines 860-870 (already sorted by
minutes). -/
def r4 : List Reminder :=
  [⟨"popup", 60⟩, ⟨"popup", 180⟩, ⟨"popup", 1440⟩, ⟨"popup", 4320⟩]

/-- Registry for the lookup-order counterexample: one entry whose normalised
key is fuzzy-close to the probed name, and a later entry holding the probed
name verbatim as an alias. -/
def c3db : List (String × Entry) :=
  [("aaaaaaax", ⟨"Stadium A", "Loc A", [], "2020-01-01"⟩),
   ("bbb", ⟨"Stadium B", "Loc B", ["aaaaaaab"], "2020-01-01"⟩)]

/-- Entry used for the fuzzy-threshold facts. -/
def vallEntry : Entry := ⟨"José Zorrilla", "Valladolid", [], "2020-01-01"⟩

/-- Registry for the alias-learning counterexample: a canonical entry with a
stored alias, probed under a name variant that resolves to it fuzzily. -/
def c2db : DbState :=
  ⟨[("Celta", ⟨"Balaidos", "Balaidos, Vigo", ["OldAlias"], "2020-01-01"⟩)], false⟩

/-- Registry for the churn counterexample: a stored entry rewritten with an
identical stadium. -/
def c9db : DbState :=
  ⟨[("X", ⟨"Estadio Grande", "L1", ["A"], "2020-01-01"⟩)], false⟩

/-- Registry state for the quality-gate witness. -/
def c8st : DbState :=
  ⟨[("Y", ⟨"Estadio Grande", "L1", [], "2020-01-01"⟩)], false⟩

/-- A rendered candidate for the idempotence witness. -/
def c1cand : CandidateRender :=
  ⟨"Celta de Vigo vs Getafe |⚽Liga | DAZN", "⚽ Liga\n📅 Temporada 2025-2026",
   "Balaidos, Vigo", "(Dia: Sabado 01/11 | Hora: 18:30h)", 1000, r4, "", none⟩

/-- Candidate for the MajorChange counterexample: TV suffix DAZN. -/
def c4cand : CandidateRender :=
  ⟨"Celta de Vigo vs Getafe |⚽Liga | DAZN", "descA", "locA", "(Dia)", 1000, r4,
   "", none⟩

/-- Snapshot identical to `c4cand` except for the TV suffix of the title. -/
def c4ev : Snapshot :=
  ⟨"Celta de Vigo vs Getafe |⚽Liga | M+", "descA", "locA", some 1000, r4⟩

/-- Snapshot identical to `c4cand` except for a 400-second start shift. -/
def c4evT : Snapshot :=
  ⟨"Celta de Vigo vs Getafe |⚽Liga | DAZN", "descA", "locA", some 1400, r4⟩

/-- Snapshot differing from `c4cand` in both start time and title. -/
def c4evTT : Snapshot :=
  ⟨"Celta de Vigo vs Getafe |⚽Liga | M+", "descA", "locA", some 1400, r4⟩

/-- Candidate for the reminder-order counterexample. -/
def c5cand : CandidateRender :=
  ⟨"Celta de Vigo vs Getafe |⚽Liga", "descA", "locA", "(Dia)", 1000, r4, "", none⟩

/-- Snapshot identical to `c5cand` except that the first two reminder
overrides are swapped. -/
def c5ev : Snapshot :=
  ⟨"Celta de Vigo vs Getafe |⚽Liga", "descA", "locA", some 1000,
   [⟨"popup", 180⟩, ⟨"popup", 60⟩, ⟨"popup", 1440⟩, ⟨"popup", 4320⟩]⟩

/-- A finished candidate whose score is already in the stored title. -/
def c10cand : CandidateRender :=
  ⟨"Celta de Vigo 2-1 Getafe |⚽Liga", "new desc", "new loc", "(Dia)", 1000,
   [⟨"popup", 60⟩], "finalizado", some "2-1"⟩

/-- A stored event for `c10cand` with a stale description, location and
reminder list, but a title already carrying the score. -/
def c10ev : Snapshot :=
  ⟨"Celta de Vigo 2-1 Getafe |⚽Liga | DAZN", "old desc", "old loc", some 5000, r4⟩

/-! ## Theorems -/

theorem dbFind_dbSet_self (db : List (String × Entry)) (k : String) (e : Entry) :
    dbFind (dbSet db k e) k = some e := by
  induction db with
  | nil => simp [dbSet, dbFind]
  | cons p t ih =>
    obtain ⟨k0, e0⟩ := p
    by_cases h : k0 = k
    · simp [dbSet, dbFind, h]
    · simp [dbSet, dbFind, h, ih]

theorem dbFind_dbSet_other (db : List (String × Entry)) (k : String) (e : Entry)
    (k2 : String) (h : k2 ≠ k) :
    dbFind (dbSet db k e) k2 = dbFind db k2 := by
  have hne : k ≠ k2 := fun hh => h hh.symm
  induction db with
  | nil => simp [dbSet, dbFind, hne]
  | cons p t ih =>
    obtain ⟨k0, e0⟩ := p
    by_cases hk : k0 = k
    · subst hk
      simp [dbSet, dbFind, hne]
    · by_cases hk2 : k0 = k2 <;> simp [dbSet, dbFind, hk, hk2, h, ih]

theorem skip_of_rendered (c : CandidateRender) :
    syncDecision c (some (renderedSnapshot c)) = .Skip := by
  cases hcs : consolidatedSkip c (renderedSnapshot c) with
  | true => simp [syncDecision, hcs]
  | false =>
    have h1 : timeTrigger c (renderedSnapshot c) = false := by
      simp [timeTrigger, renderedSnapshot]
    have h2 : titleTrigger c (renderedSnapshot c) = false := by
      simp [titleTrigger, renderedSnapshot]
    have h3 : descTrigger c (renderedSnapshot c) = false := by
      simp [descTrigger, renderedSnapshot]
    have h4 : locTrigger c (renderedSnapshot c) = false := by
      simp [locTrigger, renderedSnapshot]
    have h5 : remTrigger c (renderedSnapshot c) = false := by
      simp [remTrigger, renderedSnapshot]
    simp [syncDecision, hcs, h1, h2, h3, h4, h5]

theorem telegramBatch_rendered (pairs : List (CandidateRender × Option Snapshot)) :
    (∀ p ∈ pairs, p.2 = some (renderedSnapshot p.1)) → telegramBatch pairs = [] := by
  induction pairs with
  | nil => intro _; rfl
  | cons q t ih =>
    intro h
    have hq : q.2 = some (renderedSnapshot q.1) := h q (List.mem_cons_self q t)
    have hmsg : decideMsg q.1 q.2 = none := by
      rw [hq]; unfold decideMsg; rw [skip_of_rendered]
    have hrest := ih fun p hp => h p (List.mem_cons_of_mem q hp)
    simp [telegramBatch, hmsg] at hrest ⊢
    exact hrest

/-- Claim C1: idempotence of reconciliation.  For any batch of fixtures whose
existing snapshots are exactly the event bodies rendered from those same
fixtures by a prior cycle, every fixture decides `Skip`, no calendar write is
issued, and the Telegram batch is empty. -/
theorem C1_idempotence (pairs : List (CandidateRender × Option Snapshot))
    (h : ∀ p ∈ pairs, p.2 = some (renderedSnapshot p.1)) :
    (∀ p ∈ pairs, syncDecision p.1 p.2 = .Skip ∧
      issuesWrite (syncDecision p.1 p.2) = false) ∧
      telegramBatch pairs = [] := by
  constructor
  · intro p hp
    rw [h p hp, skip_of_rendered]
    exact ⟨rfl, rfl⟩
  · exact telegramBatch_rendered pairs h

/-- Witness for C1 at a concrete rendered fixture. -/
theorem C1_witness :
    syncDecision c1cand (some (renderedSnapshot c1cand)) = .Skip ∧
      telegramBatch [(c1cand, some (renderedSnapshot c1cand))] = [] :=
  ⟨((C1_idempotence [(c1cand, some (renderedSnapshot c1cand))]
        (by intro p hp; simp at hp; subst hp; rfl)).1
      (c1cand, some (renderedSnapshot c1cand)) (by simp)).1,
   (C1_idempotence [(c1cand, some (renderedSnapshot c1cand))]
        (by intro p hp; simp at hp; subst hp; rfl)).2⟩

/-- Counterexample to claim C2: `update_db` never updates a fuzzily resolved
entry in place and never appends an alias.  With a registry holding the
canonical entry `"Celta"` (alias list `["OldAlias"]`), the name
`"Real Celta FC"` resolves to that entry through `find_stadium_dynamic`, yet
an accepted update under that name leaves the `"Celta"` entry untouched —
no alias is appended — and instead creates a brand-new entry keyed by the
raw name with an empty alias list. -/
theorem C2_counterexample :
    find_stadium_dynamic c2db.db "Real Celta FC" =
      (some "Balaidos", some "Balaidos, Vigo") ∧
    dbFind (update_db c2db "Real Celta FC" "Estadio Grande Novo" "Loc Nova"
        "2025-10-12").db "Celta" =
      some ⟨"Balaidos", "Balaidos, Vigo", ["OldAlias"], "2020-01-01"⟩ ∧
    dbFind (update_db c2db "Real Celta FC" "Estadio Grande Novo" "Loc Nova"
        "2025-10-12").db "Real Celta FC" =
      some ⟨"Estadio Grande Novo", "Loc Nova", [], "2025-10-12"⟩ :=
  ⟨by decide, by decide, by decide⟩

/-- Claim C2 as amended: an accepted `update_db` call writes the entry under
the raw team name with an empty alias list — overwriting any entry at that
exact key and creating a new one otherwise — and leaves every other entry
unchanged; aliases are never appended by any registry write. -/
theorem C2_amended_write (st : DbState) (n s l d : String)
    (h : gateRejects s = false) :
    dbFind (update_db st n s l d).db n = some ⟨s, l, [], d⟩ ∧
      ∀ k, k ≠ n → dbFind (update_db st n s l d).db k = dbFind st.db k := by
  constructor
  · simp [update_db, h, dbFind_dbSet_self]
  · intro k hk
    simp [update_db, h, dbFind_dbSet_other _ _ _ _ hk]

/-- Witness for the amended C2. -/
theorem C2_amended_witness :
    dbFind (update_db c2db "Real Celta FC" "Estadio Grande Novo" "Loc Nova"
        "2025-10-12").db "Real Celta FC" =
      some ⟨"Estadio Grande Novo", "Loc Nova", [], "2025-10-12"⟩ ∧
    dbFind (update_db c2db "Real Celta FC" "Estadio Grande Novo" "Loc Nova"
        "2025-10-12").db "Celta" = dbFind c2db.db "Celta" :=
  ⟨(C2_amended_write c2db "Real Celta FC" "Estadio Grande Novo" "Loc Nova"
      "2025-10-12" (by decide)).1,
   (C2_amended_write c2db "Real Celta FC" "Estadio Grande Novo" "Loc Nova"
      "2025-10-12" (by decide)).2 "Celta" (by decide)⟩

/-- Claim C7: the built fixture is TBD exactly when the has-exact-time flag
is false (the raw `hastime` attribute equals `"1"`) or the parsed local
kickoff is exactly midnight. -/
theorem C7_tbd_rule (ht : String) (h m : Nat) :
    fetchIsTbd ht h m = true ↔
      (hasExactTimeFlag ht = false ∨ (h = 0 ∧ m = 0)) := by
  by_cases h1 : ht = "1" <;> by_cases h2 : h = 0 <;> by_cases h3 : m = 0 <;>
    simp [fetchIsTbd, hasExactTimeFlag, h1, h2, h3]

/-- Claim C8: a quality-gate rejection is atomic — the whole registry state,
dirty flag included, is returned unchanged — and the gate fires on the
blacklisted 13-character `"Estadio Local"` but not on the 29-character
`"Estadio Local de Prueba Larga"`. -/
theorem C8_quality_gate :
    (∀ (st : DbState) (n s l d : String), gateRejects s = true →
        update_db st n s l d = st) ∧
    gateRejects "Estadio Local" = true ∧
    gateRejects "Estadio Local de Prueba Larga" = false := by
  refine ⟨?_, by decide, by decide⟩
  intro st n s l d h
  simp [update_db, h]

/-- Witness for C8: a rejected write leaves a concrete registry intact. -/
theorem C8_witness : update_db c8st "X" "Estadio Local" "L" "2025-10-12" = c8st :=
  C8_quality_gate.1 c8st "X" "Estadio Local" "L" "2025-10-12" (by decide)

/-- Counterexample to claim C9: an accepted update whose stadium equals the
stored one byte for byte still overwrites location, alias list and
`last_updated` — the stored entry for `"X"` had location `"L1"`, aliases
`["A"]` and timestamp `"2020-01-01"`, and the rewrite with the identical
stadium `"Estadio Grande"` replaces all three. -/
theorem C9_counterexample :
    dbFind c9db.db "X" = some ⟨"Estadio Grande", "L1", ["A"], "2020-01-01"⟩ ∧
    (update_db c9db "X" "Estadio Grande" "L2" "2025-10-12").db =
      [("X", ⟨"Estadio Grande", "L2", [], "2025-10-12"⟩)] :=
  ⟨by decide, by decide⟩

/-- Claim C9 as amended: every accepted update overwrites the whole entry
(stadium, location, empty alias list, fresh timestamp) regardless of whether
the stadium changed, and sets the dirty flag; the store is persisted at the
end of a cycle exactly when the dirty flag is set. -/
theorem C9_amended_persistence :
    (∀ (st : DbState) (n s l d : String), gateRejects s = false →
        dbFind (update_db st n s l d).db n = some ⟨s, l, [], d⟩ ∧
          (update_db st n s l d).dirty = true) ∧
    (∀ st : DbState,
        ((saveDb st).1 = some st.db ↔ st.dirty = true) ∧
          ((saveDb st).1 = none ↔ st.dirty = false)) := by
  constructor
  · intro st n s l d h
    exact ⟨by simp [update_db, h, dbFind_dbSet_self], by simp [update_db, h]⟩
  · intro st
    cases hd : st.dirty <;> simp [saveDb, hd]

/-- Witness for the amended C9. -/
theorem C9_amended_witness :
    dbFind (update_db c9db "X" "Estadio Grande" "L2" "2025-10-12").db "X" =
      some ⟨"Estadio Grande", "L2", [], "2025-10-12"⟩ ∧
    (update_db c9db "X" "Estadio Grande" "L2" "2025-10-12").dirty = true :=
  C9_amended_persistence.1 c9db "X" "Estadio Grande" "L2" "2025-10-12" (by decide)

/-- Claim C10: a finished fixture whose truthy score already appears in the
cleaned stored title is skipped before any other comparison runs — no
write, no message — whatever the description, location, title suffixes,
start time or reminder overrides say. -/
theorem C10_consolidated_skip (c : CandidateRender) (ev : Snapshot) (s : String)
    (hfin : isFinishedOf c = true) (hs : c.score = some s)
    (hne : s.isEmpty = false)
    (hin : occursIn s.data (clean_text ev.summary).data = true) :
    syncDecision c (some ev) = .Skip ∧ decideMsg c (some ev) = none ∧
      issuesWrite (syncDecision c (some ev)) = false := by
  have hcs : consolidatedSkip c ev = true := by
    simp [consolidatedSkip, hfin, hs, hne, hin]
  refine ⟨?_, ?_, ?_⟩ <;> simp [decideMsg, syncDecision, issuesWrite, hcs]

/-- Witness for C10: a concrete finished fixture with a stale description,
location, start time and reminder list is still skipped. -/
theorem C10_witness :
    syncDecision c10cand (some c10ev) = .Skip ∧
      decideMsg c10cand (some c10ev) = none ∧
      issuesWrite (syncDecision c10cand (some c10ev)) = false :=
  C10_consolidated_skip c10cand c10ev "2-1" (by decide) (by decide) (by decide)
    (by decide)

/-- Counterexample to claim C3: the lookup stages do not run in the claimed
order and the alias path is not normalised.  In `c3db` the probed name
`"aaaaaaab"` is stored verbatim as an alias of the entry `"bbb"`, so the
claimed order resolves it at the alias stage to Stadium B; the code instead
answers the fuzzy stage first (similarity 7/8 against the normalised key
`"aaaaaaax"`) and returns Stadium A. -/
theorem C3_counterexample :
    find_stadium_dynamic c3db "aaaaaaab" = (some "Stadium A", some "Loc A") ∧
    lookupSpec c3db "aaaaaaab" = (some "Stadium B", some "Loc B") ∧
    ((some "Stadium A", some "Loc A") : Option String × Option String) ≠
      (some "Stadium B", some "Loc B") :=
  ⟨by decide, by decide, by decide⟩

/-- Claim C3 as amended: for every registry and team name the lookup equals
the three-stage algorithm in the corrected order — exact raw-key hit, then
the 0.85-cutoff fuzzy match of the normalised name against the normalised
canonical keys only, then a raw-name scan of the alias lists — and on the
concrete threshold examples the fuzzy stage accepts the similarity-1 probe
and rejects the similarity-0.5 probe. -/
theorem C3_amended_resolution :
    (∀ (db : List (String × Entry)) (teamName : String),
        find_stadium_dynamic db teamName = lookupAmended db teamName) ∧
    find_stadium_dynamic [("Valladolid", vallEntry)] "Real Valladolid CF" =
      (some "José Zorrilla", some "Valladolid") ∧
    find_stadium_dynamic [("Valladolid", vallEntry)] "Villarreal" =
      (none, none) := by
  refine ⟨?_, by decide, by decide⟩
  intro db teamName
  by_cases hdb : db = []
  · simp [find_stadium_dynamic, lookupAmended, hdb]
  · simp only [find_stadium_dynamic, lookupAmended, rawKeyStage, fuzzyStage,
      rawAliasStage, hdb, if_false]
    cases h1 : dbFind db teamName with
    | some e => simp [Option.orElse]
    | none =>
      cases h2 : closeMatch1 (normalize_team_key teamName)
          ((buildNormMap (db.map Prod.fst)).map Prod.fst) with
      | some nk =>
        cases h3 : dbFind db (normValue (buildNormMap (db.map Prod.fst)) nk) <;>
          simp [Option.orElse, h2, h3]
      | none =>
        cases h4 : db.find? (fun p => p.2.aliases.contains teamName) <;>
          simp [Option.orElse, h2, h4]

/-- Counterexample to claim C4: the notify decision compares the whole
normalised title, suffixes included, and emits one generic message rather
than one line per triggering condition.  The candidate and snapshot agree on
start time, description, location, reminders and on the opponent-identifying
title core, differing only in the TV suffix of the title — the spec trigger
is false, yet the code answers `UpdateNotify`.  Moreover a snapshot with one
trigger (time) and a snapshot with two triggers (time and title) produce the
identical single message. -/
theorem C4_counterexample :
    specMajorTrigger c4cand c4ev = false ∧
    syncDecision c4cand (some c4ev) = .UpdateNotify ∧
    decideMsg c4cand (some c4evT) = decideMsg c4cand (some c4evTT) ∧
    decideMsg c4cand (some c4evT) = some (actualizadoMsg c4cand) :=
  ⟨by decide, by decide, by decide, by decide⟩

/-- Claim C4 as amended: outside the consolidated skip, the decision is
`UpdateNotify` exactly when the stored start parses and differs by more than
60 seconds or the normalised full titles (TBC prefix and competition, round
and TV suffixes included) differ; the notification payload is the single
generic updated-title message. -/
theorem C4_amended_notify (c : CandidateRender) (ev : Snapshot)
    (h : consolidatedSkip c ev = false) :
    syncDecision c (some ev) = .UpdateNotify ↔
      (timeTrigger c ev = true ∨
        normalize_text ev.summary ≠ normalize_text c.fullTitle) := by
  have e2 : (normalize_text ev.summary ≠ normalize_text c.fullTitle) ↔
      titleTrigger c ev = true := by simp [titleTrigger]
  rw [e2]
  cases h1 : timeTrigger c ev <;> cases h2 : titleTrigger c ev <;>
    cases h3 : descTrigger c ev <;> cases h4 : locTrigger c ev <;>
      cases h5 : remTrigger c ev <;>
        simp [syncDecision, h, h1, h2, h3, h4, h5]

/-- Witness for the amended C4: a pure 400-second time shift notifies. -/
theorem C4_amended_witness : syncDecision c4cand (some c4evT) = .UpdateNotify :=
  (C4_amended_notify c4cand c4evT (by decide)).mpr (Or.inl (by decide))

/-- Counterexample to claim C5: the reminder lists are compared as ordered
lists, not order-insensitively.  The snapshot holds exactly the same four
reminder overrides as the candidate, merely with the first two swapped —
the claimed comparison sees no difference, yet the code answers
`UpdateSilent`. -/
theorem C5_counterexample :
    syncDecision c5cand (some c5ev) = .UpdateSilent ∧
    List.Perm c5ev.overrides c5cand.reminders ∧
    c5ev.overrides ≠ c5cand.reminders :=
  ⟨by decide, by decide, by decide⟩

/-- Claim C5 as amended: outside the consolidated skip, the decision is
`UpdateSilent` exactly when neither the time trigger nor the normalised full
title fires while the normalised description, the normalised location, or
the reminder-override list compared as an exact ordered list (method and
minutes) differs — so the same minute values in a different order do count
as a minor change. -/
theorem C5_amended_silent (c : CandidateRender) (ev : Snapshot)
    (h : consolidatedSkip c ev = false) :
    syncDecision c (some ev) = .UpdateSilent ↔
      (timeTrigger c ev = false ∧
        normalize_text ev.summary = normalize_text c.fullTitle ∧
        (normalize_text ev.description ≠ normalize_text c.desc ∨
          normalize_text ev.location ≠ normalize_text c.location ∨
          ev.overrides ≠ c.reminders)) := by
  have e2 : (normalize_text ev.summary = normalize_text c.fullTitle) ↔
      titleTrigger c ev = false := by simp [titleTrigger]
  have e3 : (normalize_text ev.description ≠ normalize_text c.desc) ↔
      descTrigger c ev = true := by simp [descTrigger]
  have e4 : (normalize_text ev.location ≠ normalize_text c.location) ↔
      locTrigger c ev = true := by simp [locTrigger]
  have e5 : (ev.overrides ≠ c.reminders) ↔ remTrigger c ev = true := by
    simp [remTrigger]
  rw [e2, e3, e4, e5]
  cases h1 : timeTrigger c ev <;> cases h2 : titleTrigger c ev <;>
    cases h3 : descTrigger c ev <;> cases h4 : locTrigger c ev <;>
      cases h5 : remTrigger c ev <;>
        simp [syncDecision, h, h1, h2, h3, h4, h5]

/-- Witness for the amended C5: the swapped reminder order alone yields a
silent update. -/
theorem C5_amended_witness : syncDecision c5cand (some c5ev) = .UpdateSilent :=
  (C5_amended_silent c5cand c5ev (by decide)).mpr
    ⟨by decide, by decide, Or.inr (Or.inr (by decide))⟩

/-- Counterexample to claim C6: the concatenated tier list is not
deduplicated — a channel supplied twice appears twice in the full
description, where the claimed exact-string deduplication would keep a
single copy. -/
theorem C6_counterexample :
    parse_tv_channels (some ["DAZN 1", "DAZN 1"]) =
      (some "DAZN", some "DAZN 1, DAZN 1") ∧
    ("DAZN 1, DAZN 1" : String) ≠ "DAZN 1" :=
  ⟨by decide, by decide⟩

/-- Claim C6 as amended: the pipeline drops excluded and confirm-pending
entries, strips from the first parenthesis, answers `(none, none)` for a
missing list or when nothing remains, buckets the remaining candidates in
original order into the four tiers (each candidate into the first tier it
matches, as the filter characterisation states), joins the tiers in priority
order **without deduplication**, and derives the short code from the top
channel of the highest non-empty tier with the generic fallback `"TV"`; on
the concrete example of the claim it yields exactly the claimed output. -/
theorem C6_amended_channels :
    parse_tv_channels
        (some ["DAZN 1", "Hellotickets (comprar)", "Movistar Liga de Campeones"]) =
      (some "DAZN", some "DAZN 1, Movistar Liga de Campeones") ∧
    (∀ chs : List String, bucketize chs =
      (chs.filter isFree,
       chs.filter (fun c => !isFree c && isDazn c),
       chs.filter (fun c => !isFree c && !isDazn c && isMovistar c),
       chs.filter (fun c => !isFree c && !isDazn c && !isMovistar c))) ∧
    parse_tv_channels none = (none, none) ∧
    parse_tv_channels (some ["Hellotickets (comprar)", "Canal por confirmar"]) =
      (none, none) := by
  refine ⟨by decide, ?_, by decide, by decide⟩
  intro chs
  induction chs with
  | nil => rfl
  | cons c t ih =>
    cases h1 : isFree c <;> cases h2 : isDazn c <;> cases h3 : isMovistar c <;>
      simp [bucketize, List.filter_cons, h1, h2, h3, ih]
